import Mathlib

/-!
Verification of the JINNON interactive ambient-audio engine
(`AudioEngine`, the second class in `src/unnamed/part_006`, lines 817-1496).

The engine runs single-threaded; every public operation mutates one
engine object and schedules parameter changes on Web Audio nodes.  We
embed the relevant parts shallowly:

* frequencies, gains and times are rationals (reals where `Math.sqrt`
  appears), abstracting IEEE doubles;
* an `AudioParam` is abstracted by the target value of its most recently
  scheduled ramp (for the ducking and calibration-tone claims) or by its
  full time-ordered event schedule (for the ramp-cancellation claim);
* Web Audio calls that can throw (`AudioScheduledSourceNode.stop` before
  `start`) are embedded in `Except`; calls that cannot throw for the
  arguments the engine passes are total;
* `setTimeout` timers are a pending-id list plus the engine's stored
  handle.
-/

namespace Jinnon

/-- The `SoundIdentifier` enumeration (`InteractionType` in the source). -/
inductive SoundType
  | BIRD | WIND | LEAVES | WATER | RAIN | INSECT
deriving DecidableEq, Repr

/-- `calculatePitch` from `playInteractionSound` (part_006 lines 1178-1185):
`ratio = tinnitusFreq / baseFreq`; aggressive mapping
`Math.max(0.5, Math.min(2.5, ratio))`; damped mapping
`Math.max(0.6, Math.min(1.8, Math.sqrt(ratio)))`. -/
noncomputable def calculatePitch (tinnitusFreq baseFreq : ℝ) (aggressive : Bool) : ℝ :=
  if aggressive then
    max 0.5 (min 2.5 (tinnitusFreq / baseFreq))
  else
    max 0.6 (min 1.8 (Real.sqrt (tinnitusFreq / baseFreq)))

/-- The spec's `clamp(x, lo, hi)`. -/
noncomputable def clamp (x lo hi : ℝ) : ℝ := max lo (min hi x)

/-- Which categories use the aggressive mapping: the source calls
`calculatePitch(8000, true)` exactly for BIRD and INSECT. -/
def usesAggressive : SoundType → Bool
  | .BIRD => true
  | .INSECT => true
  | _ => false

/-- Carrier frequency / filter cutoff of each synthesized-fallback branch of
`playInteractionSound` (part_006 lines 1207-1482): BIRD chirp carrier starts at
2000 Hz, LEAVES highpass 1200 Hz, WIND lowpass 300 Hz, WATER lowpass 150 Hz,
RAIN highpass 800 Hz; INSECT carrier `tinnitusFreq > 0 ? tinnitusFreq : 6000`. -/
def fallbackFrequency (ty : SoundType) (tinnitusFreq : ℚ) : ℚ :=
  match ty with
  | .BIRD => 2000
  | .LEAVES => 1200
  | .WIND => 300
  | .WATER => 150
  | .RAIN => 800
  | .INSECT => if 0 < tinnitusFreq then tinnitusFreq else 6000

/-- One live audio-producing unit created by `playInteractionSound`.
`started` records that the underlying source node's `start()` has run (every
branch of the source starts its nodes at creation time); `stopRequested`
records that the channel's `internalStop` has scheduled its fade-out/stop;
`ended` records a natural end (BIRD's `onended` / fallback timeout). -/
structure Channel where
  ty : SoundType
  fallback : Bool
  started : Bool
  stopRequested : Bool
  ended : Bool
deriving DecidableEq, Repr

/-- A channel is producing audio while its source runs and neither a stop has
been requested nor a natural end has occurred. -/
def Channel.producing (c : Channel) : Bool :=
  c.started && !c.stopRequested && !c.ended

/-- The mutable fields of the `AudioEngine` singleton that the interaction
claims depend on.  `buffers ty` says whether the decoded sample asset for
`ty` is available (the `birdBuffer` .. `insectBuffer` fields); `activeSounds`
is the `Set<string>` of active identifiers (kept duplicate-free, insertion
order retained); `channels` is the indexed family of channels created so far
(a stop handle is the index of the channel its closure captured);
`rainGain` abstracts `rainGainNode`: `none` when the field is `null`, and
`some v` when it points at a gain node whose most recently scheduled ramp
target is `v`.  The `AudioContext` is modelled as always available after
`init()`. -/
structure AudioEngine where
  buffers : SoundType → Bool
  activeSounds : List SoundType
  channels : List Channel
  rainGain : Option ℚ

/-- A fresh engine (`new AudioEngine()` after `init()`), with the given asset
availability. -/
def engineInit (buffers : SoundType → Bool) : AudioEngine :=
  { buffers := buffers, activeSounds := [], channels := [], rainGain := none }

/-- `Set.add`: append if absent. -/
def addSound (l : List SoundType) (t : SoundType) : List SoundType :=
  if t ∈ l then l else l ++ [t]

/-- `updateRainDynamics` (part_006 lines 1136-1143): no-op when
`rainGainNode` is `null`; otherwise `cancelScheduledValues` then
`setTargetAtTime(othersPlaying ? 0.05 : 0.15, now, 0.5)` where
`othersPlaying = Array.from(activeSounds).some(t => t !== 'RAIN')`. -/
def updateRainDynamics (e : AudioEngine) : AudioEngine :=
  match e.rainGain with
  | none => e
  | some _ =>
    let othersPlaying := e.activeSounds.any (fun s => decide (s ≠ SoundType.RAIN))
    let targetVol : ℚ := if othersPlaying then 5/100 else 15/100
    { e with rainGain := some targetVol }

/-- `playInteractionSound(type, tinnitusFreq, onEnded)` (part_006 lines
1146-1493): add `type` to `activeSounds`, run `updateRainDynamics`, then
build the per-category channel — sampled when the buffer is decoded,
synthesized fallback otherwise (every branch starts its source nodes at
creation).  For RAIN the new gain node is stored in `rainGainNode` and its
fade-in ramp targets `othersPlaying ? 0.05 : 0.15` in sampled mode and
`othersPlaying ? 0.03 : 0.08` in fallback mode.  Returns the new state and
the stop handle (the index of the created channel).  The reference frequency
argument only feeds `calculatePitch` and the fallback frequencies (modelled
separately above); it does not influence the state fields tracked here. -/
def playInteractionSound (e : AudioEngine) (ty : SoundType) (_tinnitusFreq : ℚ) :
    AudioEngine × Nat :=
  let e1 : AudioEngine := { e with activeSounds := addSound e.activeSounds ty }
  let e2 := updateRainDynamics e1
  let fb := !(e.buffers ty)
  let c : Channel :=
    { ty := ty, fallback := fb, started := true, stopRequested := false, ended := false }
  let k := e2.channels.length
  let e3 := { e2 with channels := e2.channels ++ [c] }
  let e4 :=
    if ty = SoundType.RAIN then
      let othersPlaying := e3.activeSounds.any (fun s => decide (s ≠ SoundType.RAIN))
      let startVol : ℚ :=
        if fb then (if othersPlaying then 3/100 else 8/100)
        else (if othersPlaying then 5/100 else 15/100)
      { e3 with rainGain := some startVol }
    else e3
  (e4, k)

/-- Web Audio errors that the embedded calls can raise: `InvalidStateError`
(`stop()` before `start()`) and `RangeError` (`exponentialRampToValueAtTime`
with target 0). -/
inductive WebAudioError
  | invalidState
  | rangeError
deriving DecidableEq, Repr

/-- The per-category `internalStop` closure of channel `k` (holding `c`).
The BIRD fallback branch never reassigns `internalStop`, so it is the initial
no-op; the BIRD sampled branch wraps `src.stop` in `try/catch`; all other
branches call `stop()` on their source nodes (throwing `InvalidStateError`
only if `start()` never ran) and schedule their gain fade-out; the RAIN
branches additionally set `rainGainNode = null`. -/
def internalStopOf (e : AudioEngine) (k : Nat) (c : Channel) :
    Except WebAudioError AudioEngine :=
  match c.ty, c.fallback with
  | SoundType.BIRD, true => Except.ok e
  | SoundType.BIRD, false =>
      Except.ok (if c.started then
        { e with channels := e.channels.set k { c with stopRequested := true } }
      else e)
  | _, _ =>
      if c.started then
        let e1 := { e with channels := e.channels.set k { c with stopRequested := true } }
        Except.ok (if c.ty = SoundType.RAIN then { e1 with rainGain := none } else e1)
      else Except.error WebAudioError.invalidState

/-- The stop handle returned by `playInteractionSound` (part_006 lines
1486-1492): `internalStop(); activeSounds.delete(type); updateRainDynamics()`.
An out-of-range handle models the inert `() => {}` returned when no audio
context exists. -/
def stopFn (e : AudioEngine) (k : Nat) : Except WebAudioError AudioEngine :=
  match e.channels.get? k with
  | none => Except.ok e
  | some c =>
    match internalStopOf e k c with
    | Except.error err => Except.error err
    | Except.ok e1 =>
        let e2 := { e1 with
          activeSounds := e1.activeSounds.filter (fun s => decide (s ≠ c.ty)) }
        Except.ok (updateRainDynamics e2)

/-- Some channel of identifier `ty` in the list is currently producing. -/
def producingIn (chs : List Channel) (ty : SoundType) : Bool :=
  chs.any (fun c => decide (c.ty = ty) && c.producing)

/-- Some channel of identifier `ty` is currently producing audio. -/
def soundProducing (e : AudioEngine) (ty : SoundType) : Bool :=
  producingIn e.channels ty

/-- The ActiveSoundSet invariant of the spec: an identifier is in the set
exactly when one of its channels is producing audio. -/
def activeInvariant (e : AudioEngine) : Prop :=
  ∀ ty : SoundType, ty ∈ e.activeSounds ↔ soundProducing e ty = true

/-- The ducking invariant on the rain gain: whenever `rainGainNode` is live,
its most recent ramp target is the recomputed ducking value for the current
active set. -/
def rainTargetConsistent (e : AudioEngine) : Prop :=
  ∀ v : ℚ, e.rainGain = some v →
    v = (if e.activeSounds.any (fun s => decide (s ≠ SoundType.RAIN)) then 5/100 else 15/100)

end Jinnon

namespace Jinnon

/-- C1: for every positive reference frequency `F`, the aggressive mapping
(used by BIRD and INSECT) equals `clamp (F/8000) 0.5 2.5` and stays within
`[0.5, 2.5]`, and the damped mapping (WIND, LEAVES, WATER, RAIN) equals
`clamp (sqrt (F/8000)) 0.6 1.8` and stays within `[0.6, 1.8]`; at the
calibration boundaries the multipliers are `0.5625` and `0.75` for
`F = 4500`, and `1.25` and `sqrt 1.25` for `F = 10000`. -/
theorem pitch_mapper_clamps :
    (∀ F : ℝ, 0 < F →
      (calculatePitch F 8000 true = clamp (F / 8000) 0.5 2.5 ∧
       calculatePitch F 8000 false = clamp (Real.sqrt (F / 8000)) 0.6 1.8 ∧
       0.5 ≤ calculatePitch F 8000 true ∧ calculatePitch F 8000 true ≤ 2.5 ∧
       0.6 ≤ calculatePitch F 8000 false ∧ calculatePitch F 8000 false ≤ 1.8)) ∧
    usesAggressive SoundType.BIRD = true ∧ usesAggressive SoundType.INSECT = true ∧
    usesAggressive SoundType.WIND = false ∧ usesAggressive SoundType.LEAVES = false ∧
    usesAggressive SoundType.WATER = false ∧ usesAggressive SoundType.RAIN = false ∧
    calculatePitch 4500 8000 true = 0.5625 ∧
    calculatePitch 4500 8000 false = 0.75 ∧
    calculatePitch 10000 8000 true = 1.25 ∧
    calculatePitch 10000 8000 false = Real.sqrt 1.25 := by
  refine ⟨?_, rfl, rfl, rfl, rfl, rfl, rfl, ?_, ?_, ?_, ?_⟩
  · intro F _
    refine ⟨rfl, rfl, le_max_left _ _, ?_, le_max_left _ _, ?_⟩
    · exact max_le (by norm_num) (min_le_left _ _)
    · exact max_le (by norm_num) (min_le_left _ _)
  · have h : (4500 : ℝ) / 8000 = 0.5625 := by norm_num
    rw [calculatePitch, if_pos rfl, h]
    rw [min_eq_right (by norm_num), max_eq_right (by norm_num)]
  · have h : (4500 : ℝ) / 8000 = (0.75 : ℝ) ^ 2 := by norm_num
    rw [calculatePitch, if_neg (by simp), h, Real.sqrt_sq (by norm_num)]
    rw [min_eq_right (by norm_num), max_eq_right (by norm_num)]
  · have h : (10000 : ℝ) / 8000 = 1.25 := by norm_num
    rw [calculatePitch, if_pos rfl, h]
    rw [min_eq_right (by norm_num), max_eq_right (by norm_num)]
  · have h : (10000 : ℝ) / 8000 = 1.25 := by norm_num
    have hle : Real.sqrt 1.25 ≤ 1.8 := by
      have : (1.25 : ℝ) ≤ 1.8 ^ 2 := by norm_num
      calc Real.sqrt 1.25 ≤ Real.sqrt (1.8 ^ 2) := Real.sqrt_le_sqrt this
        _ = 1.8 := Real.sqrt_sq (by norm_num)
    have hge : (0.6 : ℝ) ≤ Real.sqrt 1.25 := by
      have : (0.6 : ℝ) ^ 2 ≤ 1.25 := by norm_num
      calc (0.6 : ℝ) = Real.sqrt (0.6 ^ 2) := (Real.sqrt_sq (by norm_num)).symm
        _ ≤ Real.sqrt 1.25 := Real.sqrt_le_sqrt this
    rw [calculatePitch, if_neg (by simp), h]
    rw [min_eq_right hle, max_eq_right hge]

/-- Witness for C1: the universally quantified part applied at `F = 8000`. -/
theorem pitch_mapper_clamps_witness :
    calculatePitch 8000 8000 true = clamp ((8000 : ℝ) / 8000) 0.5 2.5 :=
  (pitch_mapper_clamps.1 8000 (by norm_num)).1

/-- C10: the INSECT synthesized-fallback carrier frequency is the reference
frequency when it is positive and 6000 Hz otherwise, hence strictly positive
for every input, including zero and negative values. -/
theorem insect_fallback_carrier_positive :
    ∀ f : ℚ, (0 < f → fallbackFrequency SoundType.INSECT f = f) ∧
      (f ≤ 0 → fallbackFrequency SoundType.INSECT f = 6000) ∧
      0 < fallbackFrequency SoundType.INSECT f := by
  intro f
  refine ⟨fun h => ?_, fun h => ?_, ?_⟩
  · simp [fallbackFrequency, h]
  · simp [fallbackFrequency, not_lt.mpr h]
  · by_cases h : 0 < f
    · simp [fallbackFrequency, h]
    · simp [fallbackFrequency, h]

/-- Witness for C10: evaluated at the negative input `-3` and at `0`. -/
theorem insect_fallback_carrier_positive_witness :
    fallbackFrequency SoundType.INSECT (-3) = 6000 ∧
      0 < fallbackFrequency SoundType.INSECT (-3) ∧
      fallbackFrequency SoundType.INSECT 0 = 6000 :=
  ⟨(insect_fallback_carrier_positive (-3)).2.1 (by norm_num),
   (insect_fallback_carrier_positive (-3)).2.2,
   (insect_fallback_carrier_positive 0).2.1 le_rfl⟩

/-- C3 counterexample: the BIRD and WIND synthesized fallbacks produce the
same carrier/cutoff frequency for the two distinct reference frequencies
4500 Hz and 10000 Hz, so different reference frequencies do not yield
correspondingly different fallback outputs. -/
theorem fallback_ignores_reference_freq :
    (4500 : ℚ) ≠ 10000 ∧
    fallbackFrequency SoundType.BIRD 4500 = fallbackFrequency SoundType.BIRD 10000 ∧
    fallbackFrequency SoundType.WIND 4500 = fallbackFrequency SoundType.WIND 10000 := by
  refine ⟨by norm_num, rfl, rfl⟩

/-- C3 amended: in the synthesized-fallback branches the carrier/cutoff
frequency is a per-category constant independent of the reference frequency
for BIRD, WIND, LEAVES, WATER and RAIN; only the INSECT fallback uses the
reference frequency, taking it directly (unscaled) when positive and 6000 Hz
otherwise. -/
theorem fallback_frequency_behaviour :
    (∀ f g : ℚ, fallbackFrequency SoundType.BIRD f = fallbackFrequency SoundType.BIRD g ∧
      fallbackFrequency SoundType.WIND f = fallbackFrequency SoundType.WIND g ∧
      fallbackFrequency SoundType.LEAVES f = fallbackFrequency SoundType.LEAVES g ∧
      fallbackFrequency SoundType.WATER f = fallbackFrequency SoundType.WATER g ∧
      fallbackFrequency SoundType.RAIN f = fallbackFrequency SoundType.RAIN g) ∧
    (∀ f : ℚ, 0 < f → fallbackFrequency SoundType.INSECT f = f) ∧
    fallbackFrequency SoundType.INSECT 0 = 6000 := by
  refine ⟨fun f g => ⟨rfl, rfl, rfl, rfl, rfl⟩, fun f h => by simp [fallbackFrequency, h], rfl⟩

/-- Witness for C3's amended theorem: applied at the concrete positive
reference frequency 9000. -/
theorem fallback_frequency_behaviour_witness :
    fallbackFrequency SoundType.INSECT 9000 = 9000 :=
  fallback_frequency_behaviour.2.1 9000 (by norm_num)

/-- The state after starting RAIN (with no rain asset decoded, so in
synthesized-fallback mode) and then starting BIRD. -/
def rainFallbackThenBird : AudioEngine :=
  (playInteractionSound
    (playInteractionSound (engineInit (fun _ => false)) SoundType.RAIN 8000).1
    SoundType.BIRD 8000).1

/-- C2 counterexample: with RAIN running in synthesized-fallback mode
(channel 0 has `fallback := true`) and BIRD also active, the ducking
recomputation performed when BIRD started left the rain gain target at
`0.05`, not at the claimed fallback value `0.03`: `updateRainDynamics`
ignores the fallback mode. -/
theorem rain_duck_fallback_counterexample :
    rainFallbackThenBird.channels.get? 0 =
      some { ty := SoundType.RAIN, fallback := true, started := true,
             stopRequested := false, ended := false } ∧
    rainFallbackThenBird.activeSounds = [SoundType.RAIN, SoundType.BIRD] ∧
    rainFallbackThenBird.rainGain = some (5/100) ∧
    (5/100 : ℚ) ≠ 3/100 := by
  refine ⟨rfl, rfl, ?_, by norm_num⟩
  show some (if true then (5:ℚ)/100 else 15/100) = some (5/100)
  norm_num

/-- C2 amended: the ducking recomputation (`updateRainDynamics`), run on
every start and stop, is a no-op when no rain gain node is live, and
otherwise always retargets the rain gain to `0.05` when another identifier
is active and `0.15` otherwise — in sampled and fallback mode alike.  The
`0.03`/`0.08` pair occurs only as the initial fade-in target when RAIN
itself starts in synthesized-fallback mode (sampled RAIN fades in to the
`0.05`/`0.15` pair). -/
theorem rain_duck_recompute :
    (∀ e : AudioEngine, e.rainGain = none → updateRainDynamics e = e) ∧
    (∀ (e : AudioEngine) (v : ℚ), e.rainGain = some v →
      (updateRainDynamics e).rainGain =
        some (if e.activeSounds.any (fun s => decide (s ≠ SoundType.RAIN))
              then 5/100 else 15/100)) ∧
    (∀ (e : AudioEngine) (tf : ℚ), e.buffers SoundType.RAIN = false →
      ((playInteractionSound e SoundType.RAIN tf).1).rainGain =
        some (if (addSound e.activeSounds SoundType.RAIN).any
                  (fun s => decide (s ≠ SoundType.RAIN))
              then 3/100 else 8/100)) ∧
    (∀ (e : AudioEngine) (tf : ℚ), e.buffers SoundType.RAIN = true →
      ((playInteractionSound e SoundType.RAIN tf).1).rainGain =
        some (if (addSound e.activeSounds SoundType.RAIN).any
                  (fun s => decide (s ≠ SoundType.RAIN))
              then 5/100 else 15/100)) := by
  refine ⟨?_, ?_, ?_, ?_⟩
  · intro e h
    unfold updateRainDynamics
    rw [h]
  · intro e v h
    unfold updateRainDynamics
    rw [h]
  · intro e tf h
    unfold playInteractionSound updateRainDynamics
    cases hr : e.rainGain <;> simp [h, hr]
  · intro e tf h
    unfold playInteractionSound updateRainDynamics
    cases hr : e.rainGain <;> simp [h, hr]

/-- Witness for C2's amended theorem: starting RAIN on a fresh engine with no
rain asset fades it in towards `0.08` (no other sound active). -/
theorem rain_duck_recompute_witness :
    ((playInteractionSound (engineInit (fun _ => false)) SoundType.RAIN 8000).1).rainGain =
      some (if (addSound [] SoundType.RAIN).any (fun s => decide (s ≠ SoundType.RAIN))
            then 3/100 else 8/100) :=
  rain_duck_recompute.2.2.1 (engineInit (fun _ => false)) 8000 rfl

lemma updateRain_activeSounds (e : AudioEngine) :
    (updateRainDynamics e).activeSounds = e.activeSounds := by
  unfold updateRainDynamics
  cases h : e.rainGain <;> simp

lemma updateRain_channels (e : AudioEngine) :
    (updateRainDynamics e).channels = e.channels := by
  unfold updateRainDynamics
  cases h : e.rainGain <;> simp

lemma updateRain_consistent (e : AudioEngine) :
    rainTargetConsistent (updateRainDynamics e) := by
  obtain ⟨b, as, ch, rg⟩ := e
  cases rg with
  | none => intro v hv; exact Option.noConfusion hv
  | some w =>
      intro v hv
      simp only [updateRainDynamics, Option.some.injEq] at hv
      exact hv.symm

lemma play_activeSounds (e : AudioEngine) (ty : SoundType) (tf : ℚ) :
    (playInteractionSound e ty tf).1.activeSounds = addSound e.activeSounds ty := by
  unfold playInteractionSound
  by_cases h : ty = SoundType.RAIN <;> simp [h, updateRain_activeSounds]

lemma play_channels (e : AudioEngine) (ty : SoundType) (tf : ℚ) :
    (playInteractionSound e ty tf).1.channels =
      e.channels ++ [{ ty := ty, fallback := !e.buffers ty, started := true,
                       stopRequested := false, ended := false }] := by
  unfold playInteractionSound
  by_cases h : ty = SoundType.RAIN <;> simp [h, updateRain_channels]

lemma play_handle (e : AudioEngine) (ty : SoundType) (tf : ℚ) :
    (playInteractionSound e ty tf).2 = e.channels.length := by
  unfold playInteractionSound
  by_cases h : ty = SoundType.RAIN <;> simp [h, updateRain_channels]

lemma play_newChannel (e : AudioEngine) (ty : SoundType) (tf : ℚ) :
    (playInteractionSound e ty tf).1.channels.get? (playInteractionSound e ty tf).2 =
      some { ty := ty, fallback := !e.buffers ty, started := true,
             stopRequested := false, ended := false } := by
  rw [play_channels, play_handle]
  exact List.get?_concat_length _ _

lemma mem_addSound {l : List SoundType} {ty s : SoundType} :
    s ∈ addSound l ty ↔ s ∈ l ∨ s = ty := by
  by_cases h : ty ∈ l
  · simp only [addSound, if_pos h]
    constructor
    · exact Or.inl
    · rintro (hs | rfl)
      · exact hs
      · exact h
  · simp [addSound, if_neg h, List.mem_append]

lemma mem_filter_ne {l : List SoundType} {ty s : SoundType} :
    s ∈ l.filter (fun x => decide (x ≠ ty)) ↔ s ∈ l ∧ s ≠ ty := by
  simp [List.mem_filter]

lemma producingIn_iff {chs : List Channel} {ty : SoundType} :
    producingIn chs ty = true ↔ ∃ c ∈ chs, c.ty = ty ∧ c.producing = true := by
  unfold producingIn
  rw [List.any_eq_true]
  simp

lemma producingIn_iff_get {chs : List Channel} {ty : SoundType} :
    producingIn chs ty = true ↔
      ∃ (j : Nat) (c : Channel), chs.get? j = some c ∧ c.ty = ty ∧ c.producing = true := by
  rw [producingIn_iff]
  constructor
  · rintro ⟨c, hc, h1, h2⟩
    obtain ⟨j, hj⟩ := List.mem_iff_get?.mp hc
    exact ⟨j, c, hj, h1, h2⟩
  · rintro ⟨j, c, hj, h1, h2⟩
    exact ⟨c, List.mem_iff_get?.mpr ⟨j, hj⟩, h1, h2⟩

lemma internalStopOf_started (e : AudioEngine) (k : Nat) (c : Channel)
    (hst : c.started = true) :
    ∃ e1, internalStopOf e k c = Except.ok e1 ∧ e1.activeSounds = e.activeSounds ∧
      (e1.channels = e.channels ∨
       e1.channels = e.channels.set k { c with stopRequested := true }) := by
  obtain ⟨cty, cfb, cst, csr, cen⟩ := c
  cases cst
  · cases hst
  · cases cty <;> cases cfb <;>
      first
        | exact ⟨_, rfl, rfl, Or.inl rfl⟩
        | exact ⟨_, rfl, rfl, Or.inr rfl⟩

lemma internalStopOf_ok (e : AudioEngine) (k : Nat) (c : Channel) (e1 : AudioEngine)
    (hnotbf : ¬(c.ty = SoundType.BIRD ∧ c.fallback = true))
    (h : internalStopOf e k c = Except.ok e1) :
    e1.activeSounds = e.activeSounds ∧
    ((c.started = false ∧ e1.channels = e.channels) ∨
     e1.channels = e.channels.set k { c with stopRequested := true }) := by
  obtain ⟨cty, cfb, cst, csr, cen⟩ := c
  cases cst
  case false =>
    cases cty <;> cases cfb <;>
      first
        | exact Except.noConfusion h
        | (injection h with h2; subst h2; exact ⟨rfl, Or.inl ⟨rfl, rfl⟩⟩)
  case true =>
    cases cty <;> cases cfb <;>
      first
        | (injection h with h2; subst h2; exact ⟨rfl, Or.inr rfl⟩)
        | exact absurd ⟨rfl, rfl⟩ hnotbf

lemma stopFn_started (e : AudioEngine) (k : Nat) (c : Channel)
    (hk : e.channels.get? k = some c) (hst : c.started = true) :
    ∃ (e1 : AudioEngine) (c1 : Channel), stopFn e k = Except.ok e1 ∧
      c.ty ∉ e1.activeSounds ∧ rainTargetConsistent e1 ∧
      e1.channels.get? k = some c1 ∧ c1.started = true ∧ c1.ty = c.ty := by
  obtain ⟨e1, hok, hact, hch⟩ := internalStopOf_started e k c hst
  simp only [stopFn, hk, hok]
  rcases hch with hch | hch
  · refine ⟨_, c, rfl, ?_, updateRain_consistent _, ?_, hst, rfl⟩
    · rw [updateRain_activeSounds]
      intro hmem
      exact (mem_filter_ne.mp hmem).2 rfl
    · rw [updateRain_channels]
      dsimp only
      rw [hch, hk]
  · refine ⟨_, { c with stopRequested := true }, rfl, ?_, updateRain_consistent _, ?_, hst, rfl⟩
    · rw [updateRain_activeSounds]
      intro hmem
      exact (mem_filter_ne.mp hmem).2 rfl
    · rw [updateRain_channels]
      dsimp only
      rw [hch, List.get?_set_eq, hk]
      rfl

lemma producingIn_append (l : List Channel) (c : Channel) (ty : SoundType) :
    producingIn (l ++ [c]) ty = (producingIn l ty || (decide (c.ty = ty) && c.producing)) := by
  unfold producingIn
  rw [List.any_append]
  simp

/-- Starting WIND on a fresh engine with all samples decoded. -/
def windOnce : AudioEngine × Nat :=
  playInteractionSound (engineInit (fun _ => true)) SoundType.WIND 8000

/-- The engine after a second WIND start with no intervening stop. -/
def windTwice : AudioEngine :=
  (playInteractionSound windOnce.1 SoundType.WIND 8000).1

/-- The engine after the first WIND channel's stop handle runs on
`windTwice`: the active set is empty but the second WIND channel, a looping
sample source nobody stopped, is still producing. -/
def windAfterFirstStop : AudioEngine :=
  { buffers := fun _ => true, activeSounds := [],
    channels :=
      [{ ty := SoundType.WIND, fallback := false, started := true,
         stopRequested := true, ended := false },
       { ty := SoundType.WIND, fallback := false, started := true,
         stopRequested := false, ended := false }],
    rainGain := none }

/-- C4 counterexample: start WIND, start WIND again without stopping, then
call the first stop handle.  The stop succeeds and removes WIND from
ActiveSoundSet (a `Set` holds each identifier once), yet the second WIND
channel is still producing audio, so membership is not equivalent to
production in this reachable state: the claimed invariant fails under
double-start. -/
theorem active_set_iff_counterexample :
    stopFn windTwice windOnce.2 = Except.ok windAfterFirstStop ∧
    SoundType.WIND ∉ windAfterFirstStop.activeSounds ∧
    soundProducing windAfterFirstStop SoundType.WIND = true := by
  refine ⟨rfl, ?_, rfl⟩
  simp [windAfterFirstStop]

/-- C4 amended: the membership invariant (an identifier is in ActiveSoundSet
iff one of its channels is producing) is preserved by every
`playInteractionSound` call, and by a stop-handle call whose channel is the
unique producing channel of its identifier and is not the BIRD synthesized
fallback (whose `internalStop` is a no-op that leaves the 0.5 s chirp
playing).  It does not hold in every reachable state: starting the same
identifier twice without an intervening stop breaks the uniqueness premise,
and one stop then removes the identifier while the other channel keeps
producing (see the counterexample). -/
theorem active_set_invariant_steps :
    (∀ (e : AudioEngine) (ty : SoundType) (tf : ℚ),
        activeInvariant e → activeInvariant (playInteractionSound e ty tf).1) ∧
    (∀ (e : AudioEngine) (k : Nat) (c : Channel) (e1 : AudioEngine),
        activeInvariant e →
        e.channels.get? k = some c →
        ¬(c.ty = SoundType.BIRD ∧ c.fallback = true) →
        (∀ (j : Nat) (d : Channel), e.channels.get? j = some d →
            d.ty = c.ty → d.producing = true → j = k) →
        stopFn e k = Except.ok e1 → activeInvariant e1) := by
  constructor
  · intro e ty tf hinv
    unfold activeInvariant soundProducing
    rw [play_activeSounds, play_channels]
    intro ty2
    rw [producingIn_append]
    by_cases hty : ty2 = ty
    · subst hty
      simp [mem_addSound, Channel.producing]
    · have hne2 : ¬ ty = ty2 := fun hsame => hty hsame.symm
      simp only [mem_addSound, hty, or_false, hne2, decide_False, Bool.false_and,
        Bool.or_false]
      exact hinv ty2
  · intro e k c e1 hinv hk hnotbf huniq hstop
    simp only [stopFn, hk] at hstop
    cases hint : internalStopOf e k c with
    | error err => simp [hint] at hstop
    | ok e2 =>
        simp only [hint] at hstop
        injection hstop with hstop
        subst hstop
        obtain ⟨hact, hch⟩ := internalStopOf_ok e k c e2 hnotbf hint
        unfold activeInvariant soundProducing
        rw [updateRain_activeSounds, updateRain_channels]
        dsimp only
        rw [hact]
        intro ty2
        by_cases hty : ty2 = c.ty
        · subst hty
          rw [mem_filter_ne]
          simp only [ne_eq, not_true_eq_false, and_false, false_iff]
          intro hp
          rcases hch with ⟨hst, hch⟩ | hch
          · rw [hch] at hp
            obtain ⟨j, d, hj, hdty, hdprod⟩ := producingIn_iff_get.mp hp
            have hjk := huniq j d hj hdty hdprod
            subst hjk
            rw [hk] at hj
            injection hj with hj
            subst hj
            simp [Channel.producing, hst] at hdprod
          · rw [hch] at hp
            obtain ⟨j, d, hj, hdty, hdprod⟩ := producingIn_iff_get.mp hp
            rw [List.get?_set] at hj
            by_cases hjk : k = j
            · subst hjk
              rw [if_pos rfl, hk] at hj
              injection hj with hj
              subst hj
              simp [Channel.producing] at hdprod
            · rw [if_neg hjk] at hj
              exact hjk (huniq j d hj hdty hdprod).symm
        · rw [mem_filter_ne]
          simp only [ne_eq, hty, not_false_eq_true, and_true]
          rcases hch with ⟨hst, hch⟩ | hch
          · rw [hch]
            exact hinv ty2
          · rw [hch]
            constructor
            · intro hmem
              obtain ⟨j, d, hj, hdty, hdprod⟩ := producingIn_iff_get.mp ((hinv ty2).mp hmem)
              refine producingIn_iff_get.mpr ⟨j, d, ?_, hdty, hdprod⟩
              rw [List.get?_set]
              by_cases hjk : k = j
              · exfalso
                subst hjk
                rw [hk] at hj
                injection hj with hj
                subst hj
                exact hty hdty.symm
              · rw [if_neg hjk]
                exact hj
            · intro hp
              obtain ⟨j, d, hj, hdty, hdprod⟩ := producingIn_iff_get.mp hp
              rw [List.get?_set] at hj
              by_cases hjk : k = j
              · exfalso
                subst hjk
                rw [if_pos rfl, hk] at hj
                injection hj with hj
                subst hj
                exact hty hdty.symm
              · rw [if_neg hjk] at hj
                exact (hinv ty2).mpr (producingIn_iff_get.mpr ⟨j, d, hj, hdty, hdprod⟩)

/-- Witness for C4's amended theorem: the play-step preservation applied to a
fresh engine (which satisfies the invariant) starting WIND. -/
theorem active_set_invariant_steps_witness :
    activeInvariant (playInteractionSound (engineInit (fun _ => true)) SoundType.WIND 8000).1 :=
  active_set_invariant_steps.1 (engineInit (fun _ => true)) SoundType.WIND 8000
    (by intro ty2; simp [engineInit, soundProducing, producingIn])

/-- C5: for every engine state, identifier and reference frequency, starting
the sound and calling the returned stop handle succeeds (no exception: every
source node was started at creation, so its `stop()` cannot throw), removes
the identifier from ActiveSoundSet and re-evaluates ducking (the rain gain
target is the recomputed value for the resulting active set); calling the
same handle a second time — an already-stopping channel — again succeeds
without throwing and leaves the identifier removed. -/
theorem stop_handle_always_safe :
    ∀ (e : AudioEngine) (ty : SoundType) (tf : ℚ),
      ∃ (e1 e2 : AudioEngine),
        stopFn (playInteractionSound e ty tf).1 (playInteractionSound e ty tf).2 =
          Except.ok e1 ∧
        ty ∉ e1.activeSounds ∧ rainTargetConsistent e1 ∧
        stopFn e1 (playInteractionSound e ty tf).2 = Except.ok e2 ∧
        ty ∉ e2.activeSounds ∧ rainTargetConsistent e2 := by
  intro e ty tf
  obtain ⟨e1, c1, h1, hm1, hc1, hg1, hs1, hty1⟩ :=
    stopFn_started (playInteractionSound e ty tf).1 (playInteractionSound e ty tf).2 _
      (play_newChannel e ty tf) rfl
  obtain ⟨e2, c2, h2, hm2, hc2, hg2, hs2, hty2⟩ := stopFn_started e1 _ c1 hg1 hs1
  refine ⟨e1, e2, h1, hm1, hc1, h2, ?_, hc2⟩
  rw [hty1] at hm2
  exact hm2

/-- One call on an `AudioParam`'s schedule, with its absolute time:
`cancelScheduledValues(t)`, `setValueAtTime(v, t)`,
`linearRampToValueAtTime(v, t)`, `exponentialRampToValueAtTime(v, t)` or
`setTargetAtTime(v, t, tc)`. -/
inductive GainCall
  | cancelScheduled (t : ℚ)
  | setValue (v t : ℚ)
  | linearRamp (v t : ℚ)
  | expRamp (v t : ℚ)
  | setTarget (v t tc : ℚ)
deriving DecidableEq, Repr

/-- The time at which a scheduled call takes (or, for a ramp, reaches) its
value; for a cancel, the time from which events are removed. -/
def callTime : GainCall → ℚ
  | GainCall.cancelScheduled t => t
  | GainCall.setValue _ t => t
  | GainCall.linearRamp _ t => t
  | GainCall.expRamp _ t => t
  | GainCall.setTarget _ t _ => t

/-- The terminal value a scheduled call drives the parameter to. -/
def callValue : GainCall → ℚ
  | GainCall.cancelScheduled _ => 0
  | GainCall.setValue v _ => v
  | GainCall.linearRamp v _ => v
  | GainCall.expRamp v _ => v
  | GainCall.setTarget v _ _ => v

/-- The `fadeInOut` helper of `playInteractionSound` (part_006 lines
1168-1175): `setValueAtTime(0, t)`, `linearRampToValueAtTime(targetVol,
t+fadeTime)`, and — for one-shot sounds (`!loop && duration > 0`) — a hold
`setValueAtTime(targetVol, t+duration-fadeTime)` followed by
`linearRampToValueAtTime(0, t+duration)`. -/
def fadeInOutCalls (t dur : ℚ) (loop : Bool) (fadeTime targetVol : ℚ) : List GainCall :=
  [GainCall.setValue 0 t, GainCall.linearRamp targetVol (t + fadeTime)] ++
    (if !loop && decide (0 < dur) then
      [GainCall.setValue targetVol (t + dur - fadeTime), GainCall.linearRamp 0 (t + dur)]
     else [])

/-- The gain-parameter calls each category's `internalStop` issues when the
stop handle runs at time `s`, per mode (`sampled = true` for the sampled
branch, `false` for the synthesized fallback), read off part_006 lines
1206 (BIRD sampled: ramp only, no cancel), 1207-1242 (BIRD fallback: no
reassignment, the no-op), 1255-1260 / 1290-1295 (LEAVES), 1309-1314 /
1332-1336 (WIND), 1350-1355 / 1373-1377 (WATER), 1397-1403 / 1425-1430
(RAIN) and 1445-1450 / 1476-1481 (INSECT). -/
def stopGainCalls (ty : SoundType) (sampled : Bool) (s : ℚ) : List GainCall :=
  match ty, sampled with
  | SoundType.BIRD, true => [GainCall.linearRamp 0 (s + 1/2)]
  | SoundType.BIRD, false => []
  | SoundType.LEAVES, true => [GainCall.cancelScheduled s, GainCall.linearRamp 0 (s + 3/5)]
  | SoundType.LEAVES, false => [GainCall.linearRamp 0 (s + 1/2)]
  | SoundType.WIND, true => [GainCall.cancelScheduled s, GainCall.linearRamp 0 (s + 3/2)]
  | SoundType.WIND, false => [GainCall.linearRamp 0 (s + 2)]
  | SoundType.WATER, true => [GainCall.cancelScheduled s, GainCall.linearRamp 0 (s + 3/2)]
  | SoundType.WATER, false => [GainCall.linearRamp 0 (s + 2)]
  | SoundType.RAIN, true => [GainCall.cancelScheduled s, GainCall.linearRamp 0 (s + 4/5)]
  | SoundType.RAIN, false => [GainCall.linearRamp 0 (s + 1)]
  | SoundType.INSECT, true => [GainCall.cancelScheduled s, GainCall.linearRamp 0 (s + 1/2)]
  | SoundType.INSECT, false => [GainCall.linearRamp 0 (s + 3/10)]

/-- A stop cancels previously scheduled ramps before scheduling its own fade:
in the source this is always a leading `cancelScheduledValues` when present
at all. -/
def stopCancels : List GainCall → Bool
  | GainCall.cancelScheduled _ :: _ => true
  | _ => false

/-- Insert an event into a time-ordered schedule (Web Audio keeps the event
list sorted by time; an event at an already-occupied time goes after). -/
def insertByTime (ev : GainCall) : List GainCall → List GainCall
  | [] => [ev]
  | e :: es => if callTime ev < callTime e then ev :: e :: es else e :: insertByTime ev es

/-- Apply one call to a parameter's event schedule:
`cancelScheduledValues(t)` removes every event with time `≥ t`; any other
call is inserted in time order. -/
def applyCall (sched : List GainCall) (c : GainCall) : List GainCall :=
  match c with
  | GainCall.cancelScheduled t => sched.filter (fun ev => decide (callTime ev < t))
  | ev => insertByTime ev sched

/-- The schedule resulting from issuing the calls in order on a fresh
parameter. -/
def buildSchedule (calls : List GainCall) : List GainCall :=
  calls.foldl applyCall []

/-- The parameter's value at time `T` under the step abstraction: the
terminal value of the latest event with time `≤ T` (0 before any event). -/
def valueAt (sched : List GainCall) (T : ℚ) : ℚ :=
  ((sched.filter (fun ev => decide (callTime ev ≤ T))).map callValue).getLastD 0

/-- C6 counterexample: the BIRD sampled-mode stop schedules its fade-out ramp
without cancelling anything, and the stale envelope does resurrect the
volume: with a 10 s one-shot envelope (fade 0.2 s to 0.7, as the source
schedules for a 10 s buffer at rate 1) and the stop handle called at t = 1,
the gain is 0 at t = 2 yet back at 0.7 at t = 9.9. -/
theorem stop_cancel_counterexample :
    stopCancels (stopGainCalls SoundType.BIRD true 1) = false ∧
    valueAt (buildSchedule (fadeInOutCalls 0 10 false (1/5) (7/10) ++
      stopGainCalls SoundType.BIRD true 1)) 2 = 0 ∧
    valueAt (buildSchedule (fadeInOutCalls 0 10 false (1/5) (7/10) ++
      stopGainCalls SoundType.BIRD true 1)) (99/10) = 7/10 ∧
    (2 : ℚ) < 99/10 := by
  refine ⟨rfl, ?_, ?_, by norm_num⟩ <;>
    norm_num [fadeInOutCalls, stopGainCalls, buildSchedule, applyCall, insertByTime,
      callTime, callValue, valueAt, List.filter, List.foldl, List.getLastD]

/-- C6 amended: a stop cancels previously scheduled ramps before scheduling
its fade-out exactly when it is a sampled-mode stop of a category other than
BIRD; the BIRD sampled stop and every synthesized-fallback stop schedule
their fade (or, for the BIRD fallback, nothing) without any cancellation.
For a cancelling stop the fade does stick: the WIND sampled stop at t = 1
leaves the gain at 0 from the end of its ramp on. -/
theorem stop_cancel_by_mode :
    (∀ (ty : SoundType) (s : ℚ),
        stopCancels (stopGainCalls ty true s) = decide (ty ≠ SoundType.BIRD)) ∧
    (∀ (ty : SoundType) (s : ℚ), stopCancels (stopGainCalls ty false s) = false) ∧
    valueAt (buildSchedule (fadeInOutCalls 0 0 true 1 (4/5) ++
      stopGainCalls SoundType.WIND true 1)) (99/10) = 0 := by
  refine ⟨?_, ?_, ?_⟩
  · intro ty s; cases ty <;> rfl
  · intro ty s; cases ty <;> rfl
  · norm_num [fadeInOutCalls, stopGainCalls, buildSchedule, applyCall, insertByTime,
      callTime, callValue, valueAt, List.filter, List.foldl, List.getLastD]

/-- The generative sequencer's scheduling state: `pianoTimeout` is the stored
`window.setTimeout` handle (`null` when cleared) and `pending` the
platform's queue of not-yet-fired timer callbacks; `nextId` generates fresh
timer ids. -/
structure PianoState where
  pianoTimeout : Option Nat
  pending : List Nat
  nextId : Nat
deriving DecidableEq, Repr

/-- The sequencer before `startPiano` ever ran. -/
def pianoInit : PianoState := { pianoTimeout := none, pending := [], nextId := 0 }

/-- `playNextPianoNote` (part_006 lines 1081-1122): synthesize one note (the
audio nodes are self-releasing via `onended` and not tracked here) and
schedule the next call with `window.setTimeout`, storing the handle in
`pianoTimeout`. -/
def playNextPianoNote (s : PianoState) : PianoState :=
  { pianoTimeout := some s.nextId, pending := s.pending ++ [s.nextId], nextId := s.nextId + 1 }

/-- `startPiano` (lines 1068-1072): no-op when a timeout is pending. -/
def startPiano (s : PianoState) : PianoState :=
  if s.pianoTimeout.isSome then s else playNextPianoNote s

/-- `stopPiano` (lines 1074-1079): `clearTimeout` the stored handle and null
the field. -/
def stopPiano (s : PianoState) : PianoState :=
  match s.pianoTimeout with
  | some i =>
      { s with pending := s.pending.filter (fun j => decide (j ≠ i)), pianoTimeout := none }
  | none => s

/-- The platform fires a pending timer: its callback
(`() => this.playNextPianoNote()`) runs, which schedules the next one. -/
def fireTimer (s : PianoState) (i : Nat) : PianoState :=
  if i ∈ s.pending then
    playNextPianoNote { s with pending := s.pending.filter (fun j => decide (j ≠ i)) }
  else s

/-- Everything that can happen to the sequencer's scheduling state. -/
inductive PianoEvent
  | enable
  | disable
  | fire (i : Nat)
deriving DecidableEq, Repr

def pianoStep (s : PianoState) : PianoEvent → PianoState
  | PianoEvent.enable => startPiano s
  | PianoEvent.disable => stopPiano s
  | PianoEvent.fire i => fireTimer s i

def pianoRun (s : PianoState) (evs : List PianoEvent) : PianoState :=
  evs.foldl pianoStep s

/-- The single-timer invariant: the pending queue is exactly the stored
handle. -/
def PianoInv (s : PianoState) : Prop :=
  s.pending = (match s.pianoTimeout with | some i => [i] | none => [])

lemma pianoInv_init : PianoInv pianoInit := rfl

lemma pianoInv_step (s : PianoState) (ev : PianoEvent) (h : PianoInv s) :
    PianoInv (pianoStep s ev) := by
  cases ev with
  | enable =>
      show PianoInv (startPiano s)
      unfold startPiano
      cases hx : s.pianoTimeout with
      | some i => simp only [hx, Option.isSome_some, if_true]; exact h
      | none =>
          unfold PianoInv at h
          rw [hx] at h
          simp only [hx, Option.isSome_none, Bool.false_eq_true, if_false]
          unfold PianoInv playNextPianoNote
          dsimp only
          rw [h]
          simp
  | disable =>
      show PianoInv (stopPiano s)
      unfold stopPiano
      cases hx : s.pianoTimeout with
      | none => exact h
      | some i =>
          unfold PianoInv at h ⊢
          rw [hx] at h
          dsimp only at h ⊢
          rw [h]
          simp [List.filter]
  | fire i =>
      show PianoInv (fireTimer s i)
      unfold fireTimer
      by_cases hmem : i ∈ s.pending
      · rw [if_pos hmem]
        unfold PianoInv at h
        cases hx : s.pianoTimeout with
        | none =>
            rw [hx] at h
            rw [h] at hmem
            cases hmem
        | some t0 =>
            rw [hx] at h
            rw [h] at hmem
            have hit : i = t0 := by simpa using hmem
            subst hit
            unfold PianoInv playNextPianoNote
            dsimp only
            rw [h]
            simp [List.filter]
      · rw [if_neg hmem]
        exact h

/-- C7: in every reachable sequencer state there is at most one pending
scheduled callback, and enabling then disabling leaves zero pending
callbacks and a cleared handle — `stopPiano` cancels the single
self-rescheduling timer and no dangling pending callback survives. -/
theorem piano_disable_no_pending :
    ∀ evs : List PianoEvent,
      (pianoRun pianoInit evs).pending.length ≤ 1 ∧
      (stopPiano (startPiano (pianoRun pianoInit evs))).pending = [] ∧
      (stopPiano (startPiano (pianoRun pianoInit evs))).pianoTimeout = none := by
  have hrun : ∀ (evs : List PianoEvent) (s : PianoState),
      PianoInv s → PianoInv (pianoRun s evs) := by
    intro evs
    induction evs with
    | nil => intro s h; exact h
    | cons ev rest ih => intro s h; exact ih _ (pianoInv_step s ev h)
  intro evs
  have h := hrun evs pianoInit pianoInv_init
  have h2 : PianoInv (startPiano (pianoRun pianoInit evs)) :=
    pianoInv_step _ PianoEvent.enable h
  have h3 : PianoInv (stopPiano (startPiano (pianoRun pianoInit evs))) :=
    pianoInv_step _ PianoEvent.disable h2
  have ht : (stopPiano (startPiano (pianoRun pianoInit evs))).pianoTimeout = none := by
    unfold stopPiano
    cases hx : (startPiano (pianoRun pianoInit evs)).pianoTimeout <;> simp [hx]
  refine ⟨?_, ?_, ht⟩
  · unfold PianoInv at h
    rw [h]
    cases hx : (pianoRun pianoInit evs).pianoTimeout <;> simp [hx]
  · unfold PianoInv at h3
    rw [ht] at h3
    exact h3

/-- The calibration-tone fields of the engine: `tinnitusOsc` is the
oscillator (`some started` when the field is non-null) and `tinnitusGain`
the gain node abstracted by the target of its most recent ramp (`none` when
the field is null — it is never reset by `stopTinnitusTone`). -/
structure TinnitusState where
  tinnitusOsc : Option Bool
  tinnitusGain : Option ℚ
deriving DecidableEq, Repr

/-- `stopTinnitusTone` (part_006 lines 929-937): if the gain exists, ramp it
exponentially to the 0.001 floor; if the oscillator exists, schedule its
stop and null the field (the gain field is left in place). -/
def stopTinnitusTone (s : TinnitusState) : TinnitusState :=
  let s1 := match s.tinnitusGain with
    | none => s
    | some _ => { s with tinnitusGain := some (1/1000) }
  match s1.tinnitusOsc with
  | none => s1
  | some _ => { s1 with tinnitusOsc := none }

/-- `startTinnitusTone` (lines 901-921): stop any running tone first, then
create and immediately start a fresh oscillator and ramp the new gain to
`vol`. -/
def startTinnitusTone (s : TinnitusState) (_frequency vol : ℚ) : TinnitusState :=
  let s1 := if s.tinnitusOsc.isSome then stopTinnitusTone s else s
  { s1 with tinnitusOsc := some true, tinnitusGain := some vol }

/-- `exponentialRampToValueAtTime` throws `RangeError` exactly when the
target value is 0; the source ramps to 0.001 to avoid this. -/
def expRampE (v : ℚ) : Except WebAudioError ℚ :=
  if v = 0 then Except.error WebAudioError.rangeError else Except.ok v

/-- `osc.stop(...)` throws `InvalidStateError` iff `start()` never ran. -/
def oscStopE (s : TinnitusState) : Except WebAudioError TinnitusState :=
  match s.tinnitusOsc with
  | none => Except.ok s
  | some started =>
      if started then Except.ok { s with tinnitusOsc := none }
      else Except.error WebAudioError.invalidState

/-- `stopTinnitusTone` with its two fallible Web Audio calls explicit. -/
def stopTinnitusToneE (s : TinnitusState) : Except WebAudioError TinnitusState :=
  match s.tinnitusGain with
  | none => oscStopE s
  | some _ =>
      match expRampE (1/1000) with
      | Except.error err => Except.error err
      | Except.ok v => oscStopE { s with tinnitusGain := some v }

/-- Oscillators are started at creation, so a live `tinnitusOsc` is always a
started one. -/
def TinnitusWF (s : TinnitusState) : Prop :=
  s.tinnitusOsc = none ∨ s.tinnitusOsc = some true

/-- C8: `startTinnitusTone` always leaves a started oscillator; from any
well-formed state `stopTinnitusTone` succeeds (no exception) and a second
call succeeds and leaves the state exactly as the first call left it
(idempotence); and calling it when no calibration tone exists at all is a
safe no-op. -/
theorem stop_calibration_idempotent :
    (∀ (s : TinnitusState) (frequency vol : ℚ),
        TinnitusWF (startTinnitusTone s frequency vol)) ∧
    (∀ s : TinnitusState, TinnitusWF s →
        ∃ s1, stopTinnitusToneE s = Except.ok s1 ∧ stopTinnitusToneE s1 = Except.ok s1) ∧
    stopTinnitusToneE { tinnitusOsc := none, tinnitusGain := none } =
      Except.ok { tinnitusOsc := none, tinnitusGain := none } := by
  refine ⟨fun s f v => Or.inr rfl, ?_, rfl⟩
  intro s hwf
  have hne : (1/1000 : ℚ) ≠ 0 := by norm_num
  obtain ⟨og, gg⟩ := s
  rcases hwf with h | h
  · have hog : og = none := h
    subst hog
    cases gg with
    | none => exact ⟨_, rfl, rfl⟩
    | some w =>
        refine ⟨{ tinnitusOsc := none, tinnitusGain := some (1/1000) }, ?_, ?_⟩ <;>
          simp [stopTinnitusToneE, expRampE, oscStopE, hne]
  · have hog : og = some true := h
    subst hog
    cases gg with
    | none => exact ⟨{ tinnitusOsc := none, tinnitusGain := none }, rfl, rfl⟩
    | some w =>
        refine ⟨{ tinnitusOsc := none, tinnitusGain := some (1/1000) }, ?_, ?_⟩ <;>
          simp [stopTinnitusToneE, expRampE, oscStopE, hne]

/-- Witness for C8: a playing tone (gain at 0.5) is stopped twice; both calls
return the same state. -/
theorem stop_calibration_idempotent_witness :
    stopTinnitusToneE { tinnitusOsc := some true, tinnitusGain := some (1/2) } =
      Except.ok { tinnitusOsc := none, tinnitusGain := some (1/1000) } ∧
    stopTinnitusToneE { tinnitusOsc := none, tinnitusGain := some (1/1000) } =
      Except.ok { tinnitusOsc := none, tinnitusGain := some (1/1000) } := by
  obtain ⟨s1, h1, h2⟩ :=
    stop_calibration_idempotent.2.1
      { tinnitusOsc := some true, tinnitusGain := some (1/2) } (Or.inr rfl)
  have hval : stopTinnitusToneE { tinnitusOsc := some true, tinnitusGain := some (1/2) } =
      Except.ok { tinnitusOsc := none, tinnitusGain := some (1/1000) } := by
    have hne : (1/1000 : ℚ) ≠ 0 := by norm_num
    simp [stopTinnitusToneE, expRampE, oscStopE, hne]
  rw [hval] at h1
  injection h1 with h1
  subst h1
  exact ⟨hval, h2⟩

/-- The graph nodes `startDrone` pushes, in push order (part_006 lines
960-1039): the drone master gain; sawtooth 1 and its lowpass; detuned
sawtooth 2 and its lowpass; the sub-octave sine and its gain; the LFO and
its depth gain. -/
inductive DroneNodeKind
  | droneMasterGain | saw1 | lowpass1 | saw2 | lowpass2 | subSine | subGain | lfo | lfoGain
deriving DecidableEq, Repr

/-- One complete drone oscillator stack. -/
def droneStack : List DroneNodeKind :=
  [DroneNodeKind.droneMasterGain,
   DroneNodeKind.saw1, DroneNodeKind.lowpass1,
   DroneNodeKind.saw2, DroneNodeKind.lowpass2,
   DroneNodeKind.subSine, DroneNodeKind.subGain,
   DroneNodeKind.lfo, DroneNodeKind.lfoGain]

/-- The engine's `droneNodes` field: non-empty exactly while the drone is ON
or fading in (`stopDrone` empties it immediately when the fade-out begins). -/
structure DroneState where
  droneNodes : List DroneNodeKind
deriving DecidableEq, Repr

def droneInit : DroneState := { droneNodes := [] }

/-- `startDrone`: `if (this.droneNodes.length > 0) return;` then build one
stack. -/
def startDrone (s : DroneState) : DroneState :=
  if s.droneNodes.length > 0 then s else { droneNodes := droneStack }

/-- `stopDrone`: fade out, schedule the node teardown, and clear the list. -/
def stopDrone (s : DroneState) : DroneState :=
  if s.droneNodes.length > 0 then { droneNodes := [] } else s

def isOscillatorNode : DroneNodeKind → Bool
  | DroneNodeKind.saw1 => true
  | DroneNodeKind.saw2 => true
  | DroneNodeKind.subSine => true
  | DroneNodeKind.lfo => true
  | _ => false

/-- C9: enabling the drone while its node list is non-empty (ON or fading
in) is a no-op, `startDrone` is idempotent from any state, and enabling
twice from OFF yields exactly one stack — the 9 nodes of `droneStack`,
containing exactly 4 oscillators, with no duplicates. -/
theorem drone_double_enable :
    (∀ s : DroneState, s.droneNodes ≠ [] → startDrone s = s) ∧
    (∀ s : DroneState, startDrone (startDrone s) = startDrone s) ∧
    startDrone (startDrone droneInit) = startDrone droneInit ∧
    (startDrone (startDrone droneInit)).droneNodes = droneStack ∧
    (droneStack.filter isOscillatorNode).length = 4 := by
  have hno : ∀ s : DroneState, s.droneNodes ≠ [] → startDrone s = s := by
    intro s h
    unfold startDrone
    rw [if_pos (List.length_pos.mpr h)]
  have hidem : ∀ s : DroneState, startDrone (startDrone s) = startDrone s := by
    intro s
    by_cases h : s.droneNodes = []
    · have h1 : startDrone s = { droneNodes := droneStack } := by
        unfold startDrone
        rw [if_neg]
        simp [h]
      rw [h1]
      exact hno _ (by simp [droneStack])
    · rw [hno s h]
      exact hno s h
  refine ⟨hno, hidem, hidem droneInit, ?_, rfl⟩
  rw [hidem droneInit]
  rfl

/-- Witness for C9: a running drone (one full stack) is not restarted. -/
theorem drone_double_enable_witness :
    startDrone { droneNodes := droneStack } = { droneNodes := droneStack } :=
  drone_double_enable.1 { droneNodes := droneStack } (by simp [droneStack])

end Jinnon
